import Mathlib

/-!
Shallow embedding of the per-node reconciliation plugins of the sp-vm
repository (`src/services/apps/{cockroachdb,nats,rke2}/main.py`).

Pure helper functions are translated directly.  Python dictionaries coming
from the platform (`prop.get("name")`, ...) are modelled with `Option`-valued
fields.  External effects (subprocess calls, kubectl, file writes, the
cryptographic hash primitives) are modelled as oracle fields of an
environment record; each call that matters to the specification is also
recorded in an action trace carried by the round's output.
-/

namespace SpVm

/-- Round status of a `PluginOutput` (`status='completed' | 'postponed' | 'error'`). -/
inductive Status where
  | completed
  | postponed
  | error
deriving DecidableEq, Repr

/-- A published node property as seen in the state snapshot; every field is
read with `.get(...)` in the source, hence `Option`. -/
structure NodeProp where
  node_id : Option String
  name : Option String
  value : Option String
deriving DecidableEq, Repr

/-- One entry of `state_json["clusterNodes"]`; the external membership source
always supplies the node id. -/
structure ClusterNode where
  node_id : String
deriving DecidableEq, Repr

/-- The fields of the `state_json` snapshot the plugins read:
`clusterNodes`, the service's own property list
(`cockroachNodeProperties` / `natsNodeProperties` / `rke2NodeProperties`),
`wgNodeProperties`, and `cluster["leader_node"]`. -/
structure StateJson where
  clusterNodes : List ClusterNode
  serviceProps : List NodeProp
  wgProps : List NodeProp
  leader_node : Option String
deriving DecidableEq, Repr

def emptyState : StateJson := ⟨[], [], [], none⟩

/-- The raw `input_data.state` value: a dict (valid) or a non-dict value
(rejected by the `isinstance(state_json, dict)` check in each plugin). -/
inductive StateArg where
  | valid (s : StateJson)
  | invalid
deriving DecidableEq, Repr

/-- `state_json = input_data.state or {}` followed by the
`isinstance(state_json, dict)` check: a missing state defaults to the empty
dict, a non-dict state is rejected. -/
def normalizeStateArg : Option StateArg → Option StateJson
  | none => some emptyState
  | some (StateArg.valid s) => some s
  | some StateArg.invalid => none

/-- Python truthiness of an optional string (`if not x`): `None` and the
empty string are falsy. -/
def pyTruthyStr : Option String → Bool
  | none => false
  | some s => !(s == "")

/-- Python truthiness of an optional bool (`local_state.get("api_ready")`). -/
def pyTruthyBool (b : Option Bool) : Bool := b == some true

/-- Python `f"{x}"` rendering of an optional string (`None` prints as "None"). -/
def pyStr : Option String → String
  | none => "None"
  | some s => s

/-- `PluginInput`: the fields the plugins read
(`local_node_id`, `state`, `local_state`). -/
structure PluginInput (σ : Type) where
  local_node_id : String
  state : Option StateArg
  local_state : Option σ

/-- `PluginOutput` plus the trace of external calls issued by the round.
`node_properties` maps a property name to a value, `none` requesting
deletion of the property. -/
structure PluginOutput (σ α : Type) where
  status : Status
  error_message : Option String
  node_properties : List (String × Option String)
  local_state : σ
  trace : List α

/-- `get_node_tunnel_ip`: first wg property whose `node_id` and `name` match
returns its (possibly missing) `value`. -/
def get_node_tunnel_ip (node_id : Option String) (wg_props : List NodeProp) : Option String :=
  match wg_props with
  | [] => none
  | p :: rest =>
      if p.node_id == node_id && p.name == some "tunnel_ip" then p.value
      else get_node_tunnel_ip node_id rest

/-- `check_all_nodes_have_wg`: every cluster node must have a truthy
tunnel-ip value. -/
def check_all_nodes_have_wg (cluster_nodes : List ClusterNode) (wg_props : List NodeProp) : Bool :=
  cluster_nodes.all (fun node => pyTruthyStr (get_node_tunnel_ip (some node.node_id) wg_props))

/-- `get_leader_node`: `state_json.get("cluster", {}).get("leader_node")`. -/
def get_leader_node (s : StateJson) : Option String := s.leader_node

/-- `tunnel_ip_map.get(node_id, ...)` used by `compute_install_hash`:
the map is built by iterating all wg properties named `tunnel_ip`
(later entries overwrite earlier ones). -/
def tunnel_ip_map_find (wg_props : List NodeProp) (nid : String) : Option (Option String) :=
  ((wg_props.filter (fun p => p.name == some "tunnel_ip")).reverse.find?
    (fun p => p.node_id == some nid)).map (fun p => p.value)

/-- One `f"{hashed_id}={tunnel_ip}"` entry of the install-hash payload. -/
def wg_address_entry (md5fn : String → String) (wg_props : List NodeProp) (nid : String) : String :=
  md5fn nid ++ "=" ++
    (match tunnel_ip_map_find wg_props nid with
     | none => "unknown"
     | some v => pyStr v)

/-- Sorted node ids (`sorted([n["node_id"] for n in cluster_nodes])`). -/
def sorted_node_ids (cluster_nodes : List ClusterNode) : List String :=
  (cluster_nodes.map (fun n => n.node_id)).insertionSort (fun a b => a ≤ b)

namespace Crdb

/-- `COCKROACH_VERSION` default of `src/services/apps/cockroachdb/main.py`. -/
def crdbVersion : String := "v23.2.0"

/-- `is_cluster_initialized` of the cockroachdb plugin: some property named
`cockroachdb_cluster_initialized` has the exact value `"true"`. -/
def is_cluster_initialized (cockroach_props : List NodeProp) : Bool :=
  cockroach_props.any (fun p =>
    p.name == some "cockroachdb_cluster_initialized" && p.value == some "true")

/-- `compute_install_hash` of the cockroachdb plugin; the `sha256` and `md5`
hex-digest primitives are passed in as pure string functions. -/
def compute_install_hash (sha256 md5fn : String → String) (s : StateJson)
    (version : String) : String :=
  let node_ids := sorted_node_ids s.clusterNodes
  let wg_addresses := node_ids.map (wg_address_entry md5fn s.wgProps)
  sha256 (String.intercalate "|" node_ids ++ "|" ++ String.intercalate "|" wg_addresses
    ++ "|" ++ "26257" ++ "|" ++ version)

/-- The keys of `local_state` the cockroachdb plugin reads or writes. -/
structure LocalState where
  install_hash : Option String
  cockroach_ready : Option Bool
  is_leader : Option Bool
deriving DecidableEq, Repr

def LocalState.empty : LocalState := ⟨none, none, none⟩

/-- External calls issued by a cockroachdb round. -/
inductive Action where
  | createService
  | enableService
  | restartService
  | initCluster
  | nodeStatusQuery
deriving DecidableEq, Repr

/-- Outcomes of the external calls of one cockroachdb round:
`create_systemd_service`, `systemctl enable`, `systemctl restart`,
`wait_for_cockroach_ready`, `init_cluster`, `check_node_in_cluster`,
plus the hash primitives. -/
structure Env where
  sha256 : String → String
  md5 : String → String
  create_service_ok : Bool
  enable_ok : Bool
  restart_ok : Bool
  cockroach_becomes_ready : Bool
  init_cluster_ok : Bool
  node_in_cluster : Bool
  install_ok : Bool
  destroy_ok : Bool

/-- `handle_init` of the cockroachdb plugin: installs the binary and creates
directories; publishes no properties and passes `local_state` through. -/
def handle_init (env : Env) (i : PluginInput LocalState) : PluginOutput LocalState Action :=
  let ls := i.local_state.getD LocalState.empty
  if env.install_ok then ⟨Status.completed, none, [], ls, []⟩
  else ⟨Status.error, some "install failed", [], ls, []⟩

/-- The tail of cockroachdb `handle_apply` after the WireGuard/size/tunnel-ip
gating: the install-hash short-circuit, join-address construction, service
setup and restart, the readiness wait, and the leader-only cluster
formation. -/
def apply_with_hash (env : Env) (local_node_id : String) (s : StateJson)
    (ls : LocalState) (is_leader cluster_inited : Bool)
    (leader_node_id : Option String) (install_hash : String) :
    PluginOutput LocalState Action :=
  if ls.install_hash == some install_hash && pyTruthyBool ls.cockroach_ready then
    ⟨Status.completed, none, [], ls, []⟩
  else
    let join_addresses := s.clusterNodes.filterMap (fun n =>
      let t := get_node_tunnel_ip (some n.node_id) s.wgProps
      if pyTruthyStr t then some (pyStr t ++ ":26257") else none)
    if join_addresses.isEmpty then
      ⟨Status.error, some "No WireGuard addresses available for cluster nodes", [], ls, []⟩
    else if !env.create_service_ok then
      ⟨Status.error, some "Failed to create service", [], ls, [Action.createService]⟩
    else if !env.enable_ok then
      ⟨Status.error, some "Failed to enable CockroachDB", [], ls,
        [Action.createService, Action.enableService]⟩
    else if !env.restart_ok then
      ⟨Status.error, some "Failed to start CockroachDB", [], ls,
        [Action.createService, Action.enableService, Action.restartService]⟩
    else if !env.cockroach_becomes_ready then
      ⟨Status.postponed, some "CockroachDB did not become ready within timeout", [],
        { ls with install_hash := some install_hash, cockroach_ready := some false },
        [Action.createService, Action.enableService, Action.restartService]⟩
    else
      let new_ls : LocalState :=
        { ls with install_hash := some install_hash, cockroach_ready := some true,
                  is_leader := some is_leader }
      if is_leader && !cluster_inited then
        if env.init_cluster_ok then
          ⟨Status.completed, none,
            [("cockroachdb_cluster_initialized", some "true"),
             ("cockroachdb_node_ready", some "true")], new_ls,
            [Action.createService, Action.enableService, Action.restartService,
             Action.initCluster]⟩
        else
          ⟨Status.postponed, some "Failed to initialize CockroachDB cluster", [], new_ls,
            [Action.createService, Action.enableService, Action.restartService,
             Action.initCluster]⟩
      else if cluster_inited then
        if env.node_in_cluster then
          ⟨Status.completed, none, [("cockroachdb_node_ready", some "true")], new_ls,
            [Action.createService, Action.enableService, Action.restartService,
             Action.nodeStatusQuery]⟩
        else
          ⟨Status.postponed, some "Node not in cluster yet", [], new_ls,
            [Action.createService, Action.enableService, Action.restartService,
             Action.nodeStatusQuery]⟩
      else
        ⟨Status.postponed,
          some ("Waiting for leader node " ++ pyStr leader_node_id ++ " to initialize cluster"),
          [], new_ls,
          [Action.createService, Action.enableService, Action.restartService]⟩

/-- `handle_apply` of the cockroachdb plugin. -/
def handle_apply (env : Env) (i : PluginInput LocalState) : PluginOutput LocalState Action :=
  let ls := i.local_state.getD LocalState.empty
  match normalizeStateArg i.state with
  | none => ⟨Status.error, some "Invalid state format", [], ls, []⟩
  | some s =>
    if !check_all_nodes_have_wg s.clusterNodes s.wgProps then
      ⟨Status.postponed, some "Waiting for WireGuard to be configured on all nodes", [], ls, []⟩
    else if s.clusterNodes.length < 1 then
      ⟨Status.postponed, some "CockroachDB cluster requires at least 1 node", [], ls, []⟩
    else
      let leader_node_id := get_leader_node s
      let is_leader := leader_node_id == some i.local_node_id
      let cluster_inited := is_cluster_initialized s.serviceProps
      let local_tunnel_ip := get_node_tunnel_ip (some i.local_node_id) s.wgProps
      if !pyTruthyStr local_tunnel_ip then
        ⟨Status.error, some "Local node has no WireGuard tunnel IP", [], ls, []⟩
      else
        apply_with_hash env i.local_node_id s ls is_leader cluster_inited leader_node_id
          (compute_install_hash env.sha256 env.md5 s crdbVersion)

/-- `handle_destroy` of the cockroachdb plugin: tears down, requests deletion
of the two published properties, and resets `local_state` to the empty dict
(also on the exception path). -/
def handle_destroy (env : Env) (_i : PluginInput LocalState) : PluginOutput LocalState Action :=
  if env.destroy_ok then
    ⟨Status.completed, none,
      [("cockroachdb_node_ready", none), ("cockroachdb_cluster_initialized", none)],
      LocalState.empty, []⟩
  else
    ⟨Status.error, some "Failed to destroy CockroachDB", [], LocalState.empty, []⟩

end Crdb

namespace Nats

/-- `is_cluster_initialized` of the nats plugin. -/
def is_cluster_initialized (nats_props : List NodeProp) : Bool :=
  nats_props.any (fun p =>
    p.name == some "nats_cluster_initialized" && p.value == some "true")

/-- `mark_node_ready` of the nats plugin. -/
def mark_node_ready : List (String × Option String) := [("nats_node_ready", some "true")]

/-- The nats plugin never reads or writes any `local_state` key; the blob is
passed through verbatim.  It is modelled as an opaque string-keyed dict. -/
abbrev LocalState := List (String × String)

/-- External calls of one nats apply round (`systemctl enable` is issued
without checking its result; `needs_restart` is computed but unused and the
restart is unconditional). -/
inductive Action where
  | enableService
  | restartService
deriving DecidableEq, Repr

/-- Outcomes of the external calls of one nats round:
`write_nats_config`, `systemctl restart`, `wait_for_tcp`. -/
structure Env where
  write_config_ok : Bool
  restart_ok : Bool
  tcp_ready : Bool

/-- `handle_apply` of the nats plugin. -/
def handle_apply (env : Env) (i : PluginInput LocalState) : PluginOutput LocalState Action :=
  let ls := i.local_state.getD []
  match normalizeStateArg i.state with
  | none => ⟨Status.error, some "Invalid state format", [], ls, []⟩
  | some s =>
    if !check_all_nodes_have_wg s.clusterNodes s.wgProps then
      ⟨Status.postponed, some "Waiting for WireGuard to be configured on all nodes", [], ls, []⟩
    else
      let leader_node_id := get_leader_node s
      let is_leader := leader_node_id == some i.local_node_id
      let cluster_inited := is_cluster_initialized s.serviceProps
      let local_tunnel_ip := get_node_tunnel_ip (some i.local_node_id) s.wgProps
      if !pyTruthyStr local_tunnel_ip then
        ⟨Status.error, some "Local node has no WireGuard tunnel IP", [], ls, []⟩
      else if !env.write_config_ok then
        ⟨Status.error, some "Failed to write NATS config", [], ls, []⟩
      else if !env.restart_ok then
        ⟨Status.error, some "Failed to start NATS", [], ls,
          [Action.enableService, Action.restartService]⟩
      else if !env.tcp_ready then
        ⟨Status.postponed, some "NATS did not become ready within timeout", mark_node_ready, ls,
          [Action.enableService, Action.restartService]⟩
      else if is_leader && !cluster_inited then
        ⟨Status.completed, none,
          [("nats_cluster_initialized", some "true"), ("nats_node_ready", some "true")], ls,
          [Action.enableService, Action.restartService]⟩
      else if cluster_inited then
        ⟨Status.completed, none, mark_node_ready, ls,
          [Action.enableService, Action.restartService]⟩
      else
        ⟨Status.postponed,
          some ("Waiting for leader node " ++ pyStr leader_node_id
            ++ " to mark cluster initialized"), mark_node_ready, ls,
          [Action.enableService, Action.restartService]⟩

end Nats

namespace Rke2

/-- `RKE2_VERSION` and `RKE2_TOKEN` defaults of `src/services/apps/rke2/main.py`. -/
def rke2Version : String := "v1.32.8+rke2r1"

def rke2Token : String := "DefaultRke2ClusterToken12345"

/-- `is_bootstrap_done` of the rke2 plugin: some property named
`k8s_bootstrap_done` has the exact value `"true"`. -/
def is_bootstrap_done (rke2_props : List NodeProp) : Bool :=
  rke2_props.any (fun p => p.name == some "k8s_bootstrap_done" && p.value == some "true")

/-- `compute_install_hash` of the rke2 plugin (payload additionally carries
the cluster token before the version). -/
def compute_install_hash (sha256 md5fn : String → String) (s : StateJson)
    (version token : String) : String :=
  let node_ids := sorted_node_ids s.clusterNodes
  let wg_addresses := node_ids.map (wg_address_entry md5fn s.wgProps)
  sha256 (String.intercalate "|" node_ids ++ "|" ++ String.intercalate "|" wg_addresses
    ++ "|" ++ "9345" ++ "|" ++ token ++ "|" ++ version)

/-- The keys of `local_state` the rke2 plugin reads or writes. -/
structure LocalState where
  install_hash : Option String
  api_ready : Option Bool
  role : Option String
  is_bootstrap : Option Bool
  known_node_ids : Option (List String)
deriving DecidableEq, Repr

def LocalState.empty : LocalState := ⟨none, none, none, none, none⟩

/-- kubectl calls issued during stale-node reconciliation. -/
inductive KubeAction where
  | getNodes
  | cordon (name : String)
  | drain (name : String)
  | delete (name : String)
deriving DecidableEq, Repr

/-- The node name targeted by a destructive kubectl call, if any. -/
def KubeAction.target : KubeAction → Option String
  | KubeAction.cordon n => some n
  | KubeAction.drain n => some n
  | KubeAction.delete n => some n
  | KubeAction.getNodes => none

/-- Outcomes of the external calls of one rke2 round.  `k8s_nodes` is what
`get_k8s_nodes` returns; the source returns the empty list when the query
fails, so `[]` also represents an unreachable API server.  The results of
`cordon_node` and `drain_node` are logged but never used, so they carry no
oracle; `delete_ok` is the outcome of `delete_node` per node name. -/
structure Env where
  sha256 : String → String
  md5 : String → String
  k8s_nodes : List String
  delete_ok : String → Bool
  write_config_ok : Bool
  enable_ok : Bool
  start_ok : Bool
  api_becomes_ready : Bool
  kubeconfig : Option String
  install_ok : Bool
  destroy_ok : Bool

/-- Result of `remove_stale_nodes` plus the kubectl-call trace. -/
structure RemoveResult where
  success : Bool
  removed : List String
  trace : List KubeAction
deriving DecidableEq, Repr

/-- The body of the per-node loop of `remove_stale_nodes`: a node already
absent from the k8s node list is counted as removed with no call issued;
otherwise cordon and drain are attempted (best effort) and the node counts
as removed only if the delete call succeeds. -/
def remove_one (env : Env) (node_id : String) : Option String × List KubeAction :=
  let name := env.md5 node_id
  if name ∈ env.k8s_nodes then
    if env.delete_ok name then
      (some name, [KubeAction.cordon name, KubeAction.drain name, KubeAction.delete name])
    else
      (none, [KubeAction.cordon name, KubeAction.drain name, KubeAction.delete name])
  else
    (some name, [])

/-- `remove_stale_nodes` of the rke2 plugin.  The previously recorded ids are
read from `local_state["known_node_ids"]` (a Python `set`, modelled by
deduplication); if nothing disappeared the function is a no-op, and if the
k8s node query comes back empty while ids were recorded it returns success
with an empty removed list ("to avoid blocking", per the source comment). -/
def remove_stale_nodes (env : Env) (cluster_nodes : List ClusterNode)
    (local_state : LocalState) : RemoveResult :=
  let current := cluster_nodes.map (fun n => n.node_id)
  let previous := (local_state.known_node_ids.getD []).dedup
  let disappeared := previous.filter (fun nid => !(current.contains nid))
  if disappeared.isEmpty then ⟨true, [], []⟩
  else if env.k8s_nodes.isEmpty && !previous.isEmpty then ⟨true, [], [KubeAction.getNodes]⟩
  else
    let steps := disappeared.map (remove_one env)
    ⟨true, steps.filterMap Prod.fst, KubeAction.getNodes :: (steps.map Prod.snd).flatten⟩

/-- The `k8s_node_ready` check the rke2 plugin performs for the leader on
non-bootstrap nodes. -/
def leader_ready_flag (props : List NodeProp) (leader : Option String) : Bool :=
  props.any (fun p =>
    p.node_id == leader && p.name == some "k8s_node_ready" && p.value == some "true")

/-- `handle_init` of the rke2 plugin: installs rke2 and sets kernel
parameters; publishes no properties and passes `local_state` through. -/
def handle_init (env : Env) (i : PluginInput LocalState) : PluginOutput LocalState KubeAction :=
  let ls := i.local_state.getD LocalState.empty
  if env.install_ok then ⟨Status.completed, none, [], ls, []⟩
  else ⟨Status.error, some "install failed", [], ls, []⟩

/-- The tail of rke2 `handle_apply` after the readiness gating: stale-node
reconciliation outcome handling, the install-hash short-circuit, config
write, service start, the API readiness wait, and property publication.
`recon` is the result of the leader's `remove_stale_nodes` step (a no-op
result on non-leader or not-yet-ready rounds). -/
def apply_reconciled (env : Env) (local_node_id : String) (ls : LocalState)
    (is_bootstrap bootstrap_done : Bool) (install_hash : String)
    (current : List String) (recon : RemoveResult) : PluginOutput LocalState KubeAction :=
  if !recon.success then
    ⟨Status.postponed, some "Failed to remove stale nodes from cluster", [],
      { ls with known_node_ids := some current }, recon.trace⟩
  else if ls.install_hash == some install_hash && pyTruthyBool ls.api_ready then
    ⟨Status.completed, none, [], { ls with known_node_ids := some current }, recon.trace⟩
  else if !env.write_config_ok then
    ⟨Status.error, some "Failed to write config", [], ls, recon.trace⟩
  else if !env.enable_ok then
    ⟨Status.error, some "Failed to enable RKE2", [], ls, recon.trace⟩
  else if !env.start_ok then
    ⟨Status.error, some "Failed to start RKE2", [], ls, recon.trace⟩
  else if !env.api_becomes_ready then
    ⟨Status.postponed, some "RKE2 API did not become ready within timeout", [],
      { ls with install_hash := some install_hash, api_ready := some false },
      recon.trace⟩
  else
    ⟨Status.completed, none,
      [("k8s_node_id", some (env.md5 local_node_id)),
       ("k8s_node_ready", some "true")]
      ++ (if is_bootstrap && !bootstrap_done
          then [("k8s_bootstrap_done", some "true")] else [])
      ++ (match env.kubeconfig with
          | some k => [("k8s_kubeconfig", some k)]
          | none => []),
      { install_hash := some install_hash, api_ready := some true,
        role := some "server", is_bootstrap := some is_bootstrap,
        known_node_ids := some current },
      recon.trace⟩

/-- `handle_apply` of the rke2 plugin. -/
def handle_apply (env : Env) (i : PluginInput LocalState) : PluginOutput LocalState KubeAction :=
  let ls := i.local_state.getD LocalState.empty
  match normalizeStateArg i.state with
  | none => ⟨Status.error, some "Invalid state format", [], ls, []⟩
  | some s =>
    if !check_all_nodes_have_wg s.clusterNodes s.wgProps then
      ⟨Status.postponed, some "Waiting for WireGuard to be configured on all nodes", [], ls, []⟩
    else
      let leader_node_id := get_leader_node s
      let is_bootstrap := leader_node_id == some i.local_node_id
      let bootstrap_done := is_bootstrap_done s.serviceProps
      if !is_bootstrap && !bootstrap_done then
        ⟨Status.postponed,
          some ("Waiting for bootstrap node " ++ pyStr leader_node_id
            ++ " to complete initialization"), [], ls, []⟩
      else if !is_bootstrap && !(leader_ready_flag s.serviceProps leader_node_id) then
        ⟨Status.postponed,
          some ("Waiting for bootstrap node " ++ pyStr leader_node_id ++ " to become ready"),
          [], ls, []⟩
      else
        let local_tunnel_ip := get_node_tunnel_ip (some i.local_node_id) s.wgProps
        if !pyTruthyStr local_tunnel_ip then
          ⟨Status.error, some "Local node has no WireGuard tunnel IP", [], ls, []⟩
        else if !is_bootstrap && pyTruthyStr leader_node_id
            && !pyTruthyStr (get_node_tunnel_ip leader_node_id s.wgProps) then
          ⟨Status.postponed, some "Bootstrap node has no WireGuard tunnel IP yet", [], ls, []⟩
        else
          apply_reconciled env i.local_node_id ls
            (leader_node_id == some i.local_node_id) bootstrap_done
            (compute_install_hash env.sha256 env.md5 s rke2Version rke2Token)
            (s.clusterNodes.map (fun n => n.node_id))
            (if is_bootstrap && pyTruthyBool ls.api_ready then
              remove_stale_nodes env s.clusterNodes ls
            else ⟨true, [], []⟩)

/-- `handle_destroy` of the rke2 plugin: tears down, requests deletion of the
four published properties, and resets `local_state` to the empty dict (also
on the exception path). -/
def handle_destroy (env : Env) (_i : PluginInput LocalState) : PluginOutput LocalState KubeAction :=
  if env.destroy_ok then
    ⟨Status.completed, none,
      [("k8s_node_id", none), ("k8s_node_ready", none), ("k8s_bootstrap_done", none),
       ("k8s_kubeconfig", none)],
      LocalState.empty, []⟩
  else
    ⟨Status.error, some "Failed to destroy RKE2", [], LocalState.empty, []⟩

end Rke2

/-! Helper lemmas. -/

/-- A node name already absent from the k8s node list is counted as removed
with no kubectl call issued for it. -/
lemma remove_one_absent (env : Rke2.Env) (nid : String)
    (h : env.md5 nid ∉ env.k8s_nodes) :
    Rke2.remove_one env nid = (some (env.md5 nid), []) := by
  unfold Rke2.remove_one
  simp [h]

/-- Every destructive kubectl call issued by `remove_one` targets a name
present in the k8s node list. -/
lemma remove_one_trace_in_k8s (env : Rke2.Env) (nid : String) :
    ∀ a ∈ (Rke2.remove_one env nid).2,
      ∃ t, Rke2.KubeAction.target a = some t ∧ t ∈ env.k8s_nodes := by
  intro a ha
  unfold Rke2.remove_one at ha
  by_cases hm : env.md5 nid ∈ env.k8s_nodes
  · simp only [hm, if_true, apply_ite Prod.snd, ite_self] at ha
    simp only [List.mem_cons, List.not_mem_nil, or_false] at ha
    rcases ha with h | h | h <;> subst h <;> exact ⟨env.md5 nid, rfl, hm⟩
  · simp [hm] at ha

/-! Theorems for the claims. -/

/-- Claim C8: the readiness predicate `check_all_nodes_have_wg` is vacuously
true for an empty intended member list, and for a singleton list holding only
the local node it is true as soon as that node's own tunnel-ip property is
present (with a truthy value), whatever other peer properties exist. -/
theorem claim_C8_readiness :
    (∀ wg_props : List NodeProp, check_all_nodes_have_wg [] wg_props = true) ∧
    (∀ (nid ip : String) (peer_props : List NodeProp), ip ≠ "" →
      check_all_nodes_have_wg [⟨nid⟩]
        (⟨some nid, some "tunnel_ip", some ip⟩ :: peer_props) = true) := by
  constructor
  · intro wg_props
    simp [check_all_nodes_have_wg]
  · intro nid ip peer_props hip
    simp [check_all_nodes_have_wg, get_node_tunnel_ip, pyTruthyStr, hip]

/-- Witness for claim C8 at a concrete singleton member list. -/
theorem claim_C8_witness :
    check_all_nodes_have_wg [⟨"n1"⟩]
      [⟨some "n1", some "tunnel_ip", some "10.0.0.1"⟩] = true :=
  claim_C8_readiness.2 "n1" "10.0.0.1" [] (by decide)

/-- Claim C10: the cluster-wide initialized/bootstrap-done flag is set iff
some property with the flag's name has the value exactly `"true"`; the
values `"True"`, `"1"` and `""`, a missing value, and the absence of the
property all count as not set. -/
theorem claim_C10_flag_exact_true :
    ∀ props : List NodeProp,
      (Crdb.is_cluster_initialized props = true ↔
        ∃ p ∈ props, p.name = some "cockroachdb_cluster_initialized" ∧
          p.value = some "true") ∧
      (Rke2.is_bootstrap_done props = true ↔
        ∃ p ∈ props, p.name = some "k8s_bootstrap_done" ∧ p.value = some "true") ∧
      Crdb.is_cluster_initialized
        [⟨none, some "cockroachdb_cluster_initialized", some "True"⟩] = false ∧
      Crdb.is_cluster_initialized
        [⟨none, some "cockroachdb_cluster_initialized", some "1"⟩] = false ∧
      Crdb.is_cluster_initialized
        [⟨none, some "cockroachdb_cluster_initialized", some ""⟩] = false ∧
      Crdb.is_cluster_initialized
        [⟨none, some "cockroachdb_cluster_initialized", none⟩] = false ∧
      Crdb.is_cluster_initialized [] = false := by
  intro props
  refine ⟨?_, ?_, by decide, by decide, by decide, by decide, by decide⟩
  · simp [Crdb.is_cluster_initialized, List.any_eq_true]
  · simp [Rke2.is_bootstrap_done, List.any_eq_true]

/-- Claim C9: a disappeared member whose (hashed) name is already absent from
the current k8s node list is counted as removed, and no cordon, drain or
delete call targeting that name is issued during the reconciliation. -/
theorem claim_C9_already_absent (env : Rke2.Env) (cluster_nodes : List ClusterNode)
    (ls : Rke2.LocalState) (nid : String)
    (hmem : nid ∈ ls.known_node_ids.getD [])
    (hgone : nid ∉ cluster_nodes.map (fun n => n.node_id))
    (habsent : env.md5 nid ∉ env.k8s_nodes)
    (hk8s : env.k8s_nodes ≠ []) :
    env.md5 nid ∈ (Rke2.remove_stale_nodes env cluster_nodes ls).removed ∧
    ∀ a ∈ (Rke2.remove_stale_nodes env cluster_nodes ls).trace,
      Rke2.KubeAction.target a ≠ some (env.md5 nid) := by
  have hdis : nid ∈ ((ls.known_node_ids.getD []).dedup.filter
      (fun x => !((cluster_nodes.map (fun n => n.node_id)).contains x))) := by
    refine List.mem_filter.mpr ⟨List.mem_dedup.mpr hmem, ?_⟩
    simpa using hgone
  have h1 : ((ls.known_node_ids.getD []).dedup.filter
      (fun x => !((cluster_nodes.map (fun n => n.node_id)).contains x))).isEmpty = false := by
    simp only [List.isEmpty_eq_false]
    exact fun h => List.not_mem_nil nid (h ▸ hdis)
  have h2 : env.k8s_nodes.isEmpty = false := by
    simp only [List.isEmpty_eq_false]
    exact hk8s
  constructor
  · simp only [Rke2.remove_stale_nodes, h1, h2, Bool.false_eq_true, if_false,
      Bool.false_and]
    refine List.mem_filterMap.mpr ⟨(some (env.md5 nid), []), ?_, rfl⟩
    have hx := remove_one_absent env nid habsent
    exact hx ▸ List.mem_map_of_mem (Rke2.remove_one env) hdis
  · intro a ha
    simp only [Rke2.remove_stale_nodes, h1, h2, Bool.false_eq_true, if_false,
      Bool.false_and] at ha
    rcases List.mem_cons.mp ha with h | h
    · subst h
      simp [Rke2.KubeAction.target]
    · rcases List.mem_flatten.mp h with ⟨l, hl, hal⟩
      rcases List.mem_map.mp hl with ⟨p, hp, rfl⟩
      rcases List.mem_map.mp hp with ⟨m, _, rfl⟩
      rcases remove_one_trace_in_k8s env m a hal with ⟨t, ht, htk⟩
      intro hcontra
      rw [ht] at hcontra
      exact habsent ((Option.some_inj.mp hcontra) ▸ htk)

/-- A nonempty filtered list forces a nonempty base list. -/
lemma filter_ne_nil {l : List String} {f : String → Bool}
    (h : ¬ (l.filter f).isEmpty = true) : l.isEmpty = false := by
  rw [Bool.eq_false_iff]
  intro hl
  apply h
  rw [List.isEmpty_iff] at hl ⊢
  simp [hl]

/-- Claim C2 (amended): when the k8s member-list query comes back empty (the
source's representation of a failed or unreachable query), the reconciler
issues no cordon, drain or delete call and reports success with an empty
removed list; it does not signal a failure that would postpone the round. -/
theorem claim_C2_amended (env : Rke2.Env) (cluster_nodes : List ClusterNode)
    (ls : Rke2.LocalState) (hq : env.k8s_nodes = []) :
    (Rke2.remove_stale_nodes env cluster_nodes ls).success = true ∧
    (Rke2.remove_stale_nodes env cluster_nodes ls).removed = [] ∧
    ∀ a ∈ (Rke2.remove_stale_nodes env cluster_nodes ls).trace,
      Rke2.KubeAction.target a = none := by
  simp only [Rke2.remove_stale_nodes]
  by_cases hd : ((ls.known_node_ids.getD []).dedup.filter
      (fun x => !((cluster_nodes.map (fun n => n.node_id)).contains x))).isEmpty = true
  · rw [if_pos hd]
    exact ⟨rfl, rfl, fun a ha => absurd ha (List.not_mem_nil a)⟩
  · have hp : (ls.known_node_ids.getD []).dedup.isEmpty = false :=
      filter_ne_nil hd
    rw [if_neg hd, hq]
    simp only [List.isEmpty_nil, Bool.true_and, hp, Bool.not_false, if_true]
    simp [Rke2.KubeAction.target]

/-- Environment for the concrete C2 round: the k8s node query fails (empty
list), a member `B` has disappeared, and the configuration fingerprint is
unchanged. -/
def c2Env : Rke2.Env :=
  { sha256 := fun _ => "H", md5 := fun s => s, k8s_nodes := [],
    delete_ok := fun _ => true, write_config_ok := true, enable_ok := true,
    start_ok := true, api_becomes_ready := true, kubeconfig := none,
    install_ok := true, destroy_ok := true }

def c2State : StateJson :=
  { clusterNodes := [⟨"A"⟩], serviceProps := [],
    wgProps := [⟨some "A", some "tunnel_ip", some "10.0.0.1"⟩],
    leader_node := some "A" }

def c2Ls : Rke2.LocalState :=
  { install_hash := some "H", api_ready := some true, role := none,
    is_bootstrap := none, known_node_ids := some ["A", "B"] }

def c2Input : PluginInput Rke2.LocalState :=
  { local_node_id := "A", state := some (StateArg.valid c2State),
    local_state := some c2Ls }

/-- Counterexample to claim C2 as stated: in a leader apply round whose
member-list query fails (empty result) while the recorded member set is
nonempty and a member has disappeared, the round's status is `completed`,
not `postponed` (no destructive action is issued, but the claimed postponing
does not happen). -/
theorem claim_C2_counterexample :
    c2Env.k8s_nodes = [] ∧
    c2Ls.known_node_ids = some ["A", "B"] ∧
    Rke2.KubeAction.getNodes ∈ (Rke2.handle_apply c2Env c2Input).trace ∧
    (Rke2.handle_apply c2Env c2Input).status = Status.completed := by
  decide

/-- Environment for the concrete C1 round: member `B` has disappeared, is
still present in k8s, and the delete call for it fails. -/
def c1Env : Rke2.Env :=
  { sha256 := fun _ => "H", md5 := fun s => s, k8s_nodes := ["A", "B", "C"],
    delete_ok := fun n => !(n == "B"), write_config_ok := true,
    enable_ok := true, start_ok := true, api_becomes_ready := true,
    kubeconfig := none, install_ok := true, destroy_ok := true }

def c1State : StateJson :=
  { clusterNodes := [⟨"A"⟩, ⟨"C"⟩], serviceProps := [],
    wgProps := [⟨some "A", some "tunnel_ip", some "10.0.0.1"⟩,
                ⟨some "C", some "tunnel_ip", some "10.0.0.3"⟩],
    leader_node := some "A" }

def c1Ls : Rke2.LocalState :=
  { install_hash := some "H", api_ready := some true, role := none,
    is_bootstrap := none, known_node_ids := some ["A", "B", "C"] }

def c1Input : PluginInput Rke2.LocalState :=
  { local_node_id := "A", state := some (StateArg.valid c1State),
    local_state := some c1Ls }

def c1Round1 : PluginOutput Rke2.LocalState Rke2.KubeAction :=
  Rke2.handle_apply c1Env c1Input

/-- Claim C1 evaluated at the failing input: with recorded members
`[A, B, C]`, intended members `[A, C]` and a failing delete call for `B`,
the round issues `delete B` exactly once and it fails, yet the round
completes with the recorded member set refreshed to `[A, C]` (dropping `B`),
so the next round with the same intended set issues no kubectl call at all —
the failed removal is never retried, contradicting the claim (and the
source's own log message "will retry on next reconcile"). -/
theorem claim_C1_bug :
    c1Env.delete_ok "B" = false ∧
    c1Round1.trace = [Rke2.KubeAction.getNodes, Rke2.KubeAction.cordon "B",
      Rke2.KubeAction.drain "B", Rke2.KubeAction.delete "B"] ∧
    c1Round1.status = Status.completed ∧
    c1Round1.local_state.known_node_ids = some ["A", "C"] ∧
    (Rke2.handle_apply c1Env
      { c1Input with local_state := some c1Round1.local_state }).trace = [] := by
  decide

/-- Witness for claim C2 at the concrete failing-query environment. -/
theorem claim_C2_witness :
    (Rke2.remove_stale_nodes c2Env c2State.clusterNodes c2Ls).removed = [] :=
  (claim_C2_amended c2Env c2State.clusterNodes c2Ls rfl).2.1

def c9Env : Rke2.Env :=
  { sha256 := fun _ => "H", md5 := fun s => s, k8s_nodes := ["A"],
    delete_ok := fun _ => true, write_config_ok := true, enable_ok := true,
    start_ok := true, api_becomes_ready := true, kubeconfig := none,
    install_ok := true, destroy_ok := true }

def c9Ls : Rke2.LocalState :=
  { install_hash := none, api_ready := none, role := none,
    is_bootstrap := none, known_node_ids := some ["A", "B"] }

/-- Witness for claim C9: disappeared member `B` already absent from k8s is
reported removed. -/
theorem claim_C9_witness :
    "B" ∈ (Rke2.remove_stale_nodes c9Env [⟨"A"⟩] c9Ls).removed :=
  (claim_C9_already_absent c9Env [⟨"A"⟩] c9Ls "B"
    (by decide) (by decide) (by decide) (by decide)).1

/-- If every node passes the wg check and the node list is nonempty, the
cockroachdb join-address list is nonempty. -/
lemma join_addresses_ne_empty (s : StateJson)
    (hwg : check_all_nodes_have_wg s.clusterNodes s.wgProps = true)
    (hlen : s.clusterNodes ≠ []) :
    (s.clusterNodes.filterMap (fun n =>
      if pyTruthyStr (get_node_tunnel_ip (some n.node_id) s.wgProps) then
        some (pyStr (get_node_tunnel_ip (some n.node_id) s.wgProps) ++ ":26257")
      else none)).isEmpty = false := by
  obtain ⟨n, hn⟩ := List.exists_mem_of_ne_nil s.clusterNodes hlen
  have ht : pyTruthyStr (get_node_tunnel_ip (some n.node_id) s.wgProps) = true :=
    List.all_eq_true.mp hwg n hn
  rw [Bool.eq_false_iff, Ne, List.isEmpty_iff]
  intro hnil
  have : pyStr (get_node_tunnel_ip (some n.node_id) s.wgProps) ++ ":26257" ∈
      (s.clusterNodes.filterMap (fun n =>
        if pyTruthyStr (get_node_tunnel_ip (some n.node_id) s.wgProps) then
          some (pyStr (get_node_tunnel_ip (some n.node_id) s.wgProps) ++ ":26257")
        else none)) :=
    List.mem_filterMap.mpr ⟨n, hn, by rw [if_pos ht]⟩
  rw [hnil] at this
  exact List.not_mem_nil _ this

/-- Claim C5 (amended): a failed restart of the managed service makes the
cockroachdb apply round return `error` with CarryForwardState unchanged, not
`postponed`; it is the post-restart readiness-wait timeout that yields
`postponed`. -/
theorem claim_C5_amended (env : Crdb.Env) (i : PluginInput Crdb.LocalState) (s : StateJson)
    (hstate : i.state = some (StateArg.valid s))
    (hwg : check_all_nodes_have_wg s.clusterNodes s.wgProps = true)
    (hlen : s.clusterNodes ≠ [])
    (hip : pyTruthyStr (get_node_tunnel_ip (some i.local_node_id) s.wgProps) = true)
    (hsc : ((i.local_state.getD Crdb.LocalState.empty).install_hash ==
        some (Crdb.compute_install_hash env.sha256 env.md5 s Crdb.crdbVersion) &&
      pyTruthyBool (i.local_state.getD Crdb.LocalState.empty).cockroach_ready) = false)
    (hcreate : env.create_service_ok = true)
    (henable : env.enable_ok = true) :
    (env.restart_ok = false →
      (Crdb.handle_apply env i).status = Status.error ∧
      (Crdb.handle_apply env i).local_state = i.local_state.getD Crdb.LocalState.empty) ∧
    (env.restart_ok = true → env.cockroach_becomes_ready = false →
      (Crdb.handle_apply env i).status = Status.postponed) := by
  have hjoin := join_addresses_ne_empty s hwg hlen
  have hlen2 : ¬ (s.clusterNodes.length < 1) := by
    simp only [Nat.not_lt, Nat.one_le_iff_ne_zero, Ne, List.length_eq_zero]
    exact hlen
  constructor
  · intro hrestart
    simp only [Crdb.handle_apply, Crdb.apply_with_hash, hstate, normalizeStateArg, hwg, Bool.not_true,
      Bool.false_eq_true, if_false, hip, hsc, hjoin, hcreate, henable, hrestart,
      Bool.not_false, if_true, if_neg hlen2]
    refine ⟨?_, ?_⟩ <;> first
      | rfl
      | trivial
  · intro hrestart hready
    simp only [Crdb.handle_apply, Crdb.apply_with_hash, hstate, normalizeStateArg, hwg, Bool.not_true,
      Bool.false_eq_true, if_false, hip, hsc, hjoin, hcreate, henable, hrestart,
      hready, Bool.not_false, if_true, if_neg hlen2]

def c5Env : Crdb.Env :=
  { sha256 := fun _ => "H", md5 := fun s => s, create_service_ok := true,
    enable_ok := true, restart_ok := false, cockroach_becomes_ready := true,
    init_cluster_ok := true, node_in_cluster := true, install_ok := true,
    destroy_ok := true }

def c5State : StateJson :=
  { clusterNodes := [⟨"A"⟩], serviceProps := [],
    wgProps := [⟨some "A", some "tunnel_ip", some "10.0.0.1"⟩],
    leader_node := some "A" }

def c5Input : PluginInput Crdb.LocalState :=
  { local_node_id := "A", state := some (StateArg.valid c5State),
    local_state := none }

/-- Counterexample to claim C5 as stated: a round whose service restart fails
returns status `error`, not `postponed`. -/
theorem claim_C5_counterexample :
    c5Env.restart_ok = false ∧
    (Crdb.handle_apply c5Env c5Input).status = Status.error := by
  decide

/-- Witness for claim C5 at the concrete failed-restart environment. -/
theorem claim_C5_witness :
    (Crdb.handle_apply c5Env c5Input).status = Status.error :=
  ((claim_C5_amended c5Env c5Input c5State rfl (by decide) (by decide) (by decide)
    (by decide) rfl rfl).1 rfl).1

/-- Claim C3 (amended): on the leader with the cluster not yet initialized,
once every intended member has a wg tunnel-ip, the restart succeeds and the
local readiness wait passes, the round issues the cluster-formation call
regardless of how many members have published a locally-ready property, and
completes exactly when formation succeeds (postponed only on formation
failure) — there is no quorum gate over peers' locally-ready properties. -/
theorem claim_C3_amended (env : Crdb.Env) (i : PluginInput Crdb.LocalState) (s : StateJson)
    (hstate : i.state = some (StateArg.valid s))
    (hwg : check_all_nodes_have_wg s.clusterNodes s.wgProps = true)
    (hlen : s.clusterNodes ≠ [])
    (hip : pyTruthyStr (get_node_tunnel_ip (some i.local_node_id) s.wgProps) = true)
    (hsc : ((i.local_state.getD Crdb.LocalState.empty).install_hash ==
        some (Crdb.compute_install_hash env.sha256 env.md5 s Crdb.crdbVersion) &&
      pyTruthyBool (i.local_state.getD Crdb.LocalState.empty).cockroach_ready) = false)
    (hleader : (get_leader_node s == some i.local_node_id) = true)
    (hinit : Crdb.is_cluster_initialized s.serviceProps = false)
    (hcreate : env.create_service_ok = true)
    (henable : env.enable_ok = true)
    (hrestart : env.restart_ok = true)
    (hready : env.cockroach_becomes_ready = true) :
    Crdb.Action.initCluster ∈ (Crdb.handle_apply env i).trace ∧
    ((Crdb.handle_apply env i).status = Status.completed ↔ env.init_cluster_ok = true) := by
  have hjoin := join_addresses_ne_empty s hwg hlen
  have hlen2 : ¬ (s.clusterNodes.length < 1) := by
    simp only [Nat.not_lt, Nat.one_le_iff_ne_zero, Ne, List.length_eq_zero]
    exact hlen
  simp only [Crdb.handle_apply, Crdb.apply_with_hash, hstate, normalizeStateArg, hwg, Bool.not_true,
    Bool.false_eq_true, if_false, hip, hsc, hjoin, hcreate, henable, hrestart,
    hready, Bool.not_false, if_true, if_neg hlen2, hleader, hinit]
  by_cases hic : env.init_cluster_ok = true
  · simp [hic]
  · simp [hic]

def c3Env : Crdb.Env :=
  { sha256 := fun _ => "H", md5 := fun s => s, create_service_ok := true,
    enable_ok := true, restart_ok := true, cockroach_becomes_ready := true,
    init_cluster_ok := true, node_in_cluster := true, install_ok := true,
    destroy_ok := true }

def c3State : StateJson :=
  { clusterNodes := [⟨"A"⟩, ⟨"B"⟩, ⟨"C"⟩], serviceProps := [],
    wgProps := [⟨some "A", some "tunnel_ip", some "10.0.0.1"⟩,
                ⟨some "B", some "tunnel_ip", some "10.0.0.2"⟩,
                ⟨some "C", some "tunnel_ip", some "10.0.0.3"⟩],
    leader_node := some "A" }

def c3Input : PluginInput Crdb.LocalState :=
  { local_node_id := "A", state := some (StateArg.valid c3State),
    local_state := none }

/-- Counterexample to claim C3 as stated: with 3 intended members and zero
published locally-ready properties, the leader's apply round issues the
cluster-formation call and completes — it is not postponed. -/
theorem claim_C3_counterexample :
    c3State.clusterNodes.length = 3 ∧
    c3State.serviceProps = [] ∧
    Crdb.Action.initCluster ∈ (Crdb.handle_apply c3Env c3Input).trace ∧
    (Crdb.handle_apply c3Env c3Input).status = Status.completed := by
  decide

/-- Witness for claim C3 at the concrete three-member environment. -/
theorem claim_C3_witness :
    Crdb.Action.initCluster ∈ (Crdb.handle_apply c3Env c3Input).trace :=
  (claim_C3_amended c3Env c3Input c3State rfl (by decide) (by decide) (by decide)
    (by decide) rfl rfl rfl rfl rfl rfl).1

/-- If the fingerprint in `local_state` matches the freshly computed install
hash and the service is recorded ready, the cockroachdb apply round
short-circuits: `completed`, no external call, state unchanged. -/
lemma crdb_shortcircuit (env : Crdb.Env) (i : PluginInput Crdb.LocalState)
    (s : StateJson) (ls : Crdb.LocalState)
    (hst : normalizeStateArg i.state = some s)
    (hls : i.local_state = some ls)
    (hwg : check_all_nodes_have_wg s.clusterNodes s.wgProps = true)
    (hlen2 : ¬ s.clusterNodes.length < 1)
    (hip : pyTruthyStr (get_node_tunnel_ip (some i.local_node_id) s.wgProps) = true)
    (hh : ls.install_hash = some (Crdb.compute_install_hash env.sha256 env.md5 s Crdb.crdbVersion))
    (hr : ls.cockroach_ready = some true) :
    Crdb.handle_apply env i = ⟨Status.completed, none, [], ls, []⟩ := by
  simp only [Crdb.handle_apply, Crdb.apply_with_hash, hst, hls, Option.getD_some, hwg, Bool.not_true,
    Bool.false_eq_true, if_false, hip, if_neg hlen2, hh, hr, pyTruthyBool,
    beq_self_eq_true, Bool.and_self, if_true]

set_option maxHeartbeats 1600000 in
/-- A cockroachdb apply round that returns `completed` passed the state and
readiness checks and leaves a `local_state` whose fingerprint equals the
install hash of the round's state snapshot, with the ready flag set. -/
lemma crdb_completed_post (env : Crdb.Env) (i : PluginInput Crdb.LocalState)
    (out : PluginOutput Crdb.LocalState Crdb.Action)
    (hout : Crdb.handle_apply env i = out)
    (h : out.status = Status.completed) :
    ∃ s, normalizeStateArg i.state = some s ∧
      check_all_nodes_have_wg s.clusterNodes s.wgProps = true ∧
      ¬ s.clusterNodes.length < 1 ∧
      pyTruthyStr (get_node_tunnel_ip (some i.local_node_id) s.wgProps) = true ∧
      out.local_state.install_hash =
        some (Crdb.compute_install_hash env.sha256 env.md5 s Crdb.crdbVersion) ∧
      out.local_state.cockroach_ready = some true := by
  unfold Crdb.handle_apply Crdb.apply_with_hash at hout
  split at hout
  · rw [← hout] at h
    exact absurd h (by simp)
  · rename_i s hst
    dsimp only at hout
    by_cases hwg2 : (!check_all_nodes_have_wg s.clusterNodes s.wgProps) = true
    · rw [if_pos hwg2] at hout
      rw [← hout] at h
      exact absurd h (by simp)
    rw [if_neg hwg2] at hout
    have hwg : check_all_nodes_have_wg s.clusterNodes s.wgProps = true := by
      simpa using hwg2
    by_cases hlen : s.clusterNodes.length < 1
    · rw [if_pos hlen] at hout
      rw [← hout] at h
      exact absurd h (by simp)
    rw [if_neg hlen] at hout
    by_cases hip2 : (!pyTruthyStr (get_node_tunnel_ip (some i.local_node_id) s.wgProps)) = true
    · rw [if_pos hip2] at hout
      rw [← hout] at h
      exact absurd h (by simp)
    rw [if_neg hip2] at hout
    have hip : pyTruthyStr (get_node_tunnel_ip (some i.local_node_id) s.wgProps) = true := by
      simpa using hip2
    by_cases hsc : ((i.local_state.getD Crdb.LocalState.empty).install_hash ==
        some (Crdb.compute_install_hash env.sha256 env.md5 s Crdb.crdbVersion) &&
      pyTruthyBool (i.local_state.getD Crdb.LocalState.empty).cockroach_ready) = true
    · rw [if_pos hsc] at hout
      rw [← hout]
      obtain ⟨hh, hr⟩ := Bool.and_eq_true_iff.mp hsc
      simp only [pyTruthyBool] at hr
      exact ⟨s, hst, hwg, hlen, hip, eq_of_beq hh, eq_of_beq hr⟩
    rw [if_neg hsc] at hout
    by_cases hjoin : (List.filterMap (fun n =>
        if pyTruthyStr (get_node_tunnel_ip (some n.node_id) s.wgProps) = true then
          some (pyStr (get_node_tunnel_ip (some n.node_id) s.wgProps) ++ ":26257")
        else none) s.clusterNodes).isEmpty = true
    · rw [if_pos hjoin] at hout
      rw [← hout] at h
      exact absurd h (by simp)
    rw [if_neg hjoin] at hout
    by_cases hcr : (!env.create_service_ok) = true
    · rw [if_pos hcr] at hout
      rw [← hout] at h
      exact absurd h (by simp)
    rw [if_neg hcr] at hout
    by_cases hen : (!env.enable_ok) = true
    · rw [if_pos hen] at hout
      rw [← hout] at h
      exact absurd h (by simp)
    rw [if_neg hen] at hout
    by_cases hre : (!env.restart_ok) = true
    · rw [if_pos hre] at hout
      rw [← hout] at h
      exact absurd h (by simp)
    rw [if_neg hre] at hout
    by_cases hrd : (!env.cockroach_becomes_ready) = true
    · rw [if_pos hrd] at hout
      rw [← hout] at h
      exact absurd h (by simp)
    rw [if_neg hrd] at hout
    by_cases hl : ((get_leader_node s == some i.local_node_id) &&
        !Crdb.is_cluster_initialized s.serviceProps) = true
    · rw [if_pos hl] at hout
      by_cases hic : env.init_cluster_ok = true
      · rw [if_pos hic] at hout
        rw [← hout]
        exact ⟨s, hst, hwg, hlen, hip, rfl, rfl⟩
      · rw [if_neg hic] at hout
        rw [← hout] at h
        exact absurd h (by simp)
    rw [if_neg hl] at hout
    by_cases hci : Crdb.is_cluster_initialized s.serviceProps = true
    · rw [if_pos hci] at hout
      by_cases hnc : env.node_in_cluster = true
      · rw [if_pos hnc] at hout
        rw [← hout]
        exact ⟨s, hst, hwg, hlen, hip, rfl, rfl⟩
      · rw [if_neg hnc] at hout
        rw [← hout] at h
        exact absurd h (by simp)
    rw [if_neg hci] at hout
    rw [← hout] at h
    exact absurd h (by simp)

/-- Claim C4 (amended): for the cockroachdb service, invoking apply again
with the StateView unchanged after a completed round returns `completed`
without issuing any external call (no restart) and leaves CarryForwardState
unchanged — the round short-circuits on the install-hash fingerprint carried
in CarryForwardState.  (For the nats service the claim fails: see the
counterexample, nats restarts the service unconditionally every round and
carries no fingerprint.) -/
theorem claim_C4_amended (env : Crdb.Env) (i : PluginInput Crdb.LocalState)
    (h : (Crdb.handle_apply env i).status = Status.completed) :
    (Crdb.handle_apply env
      { i with local_state := some (Crdb.handle_apply env i).local_state }).status =
        Status.completed ∧
    (Crdb.handle_apply env
      { i with local_state := some (Crdb.handle_apply env i).local_state }).trace = [] ∧
    (Crdb.handle_apply env
      { i with local_state := some (Crdb.handle_apply env i).local_state }).local_state =
      (Crdb.handle_apply env i).local_state := by
  obtain ⟨s, hst, hwg, hlen, hip, hh, hr⟩ :=
    crdb_completed_post env i (Crdb.handle_apply env i) rfl h
  have key := crdb_shortcircuit env
    { i with local_state := some (Crdb.handle_apply env i).local_state } s
    (Crdb.handle_apply env i).local_state hst rfl hwg hlen hip hh hr
  rw [key]
  exact ⟨rfl, rfl, rfl⟩

def c4Env : Nats.Env :=
  { write_config_ok := true, restart_ok := true, tcp_ready := true }

def c4State : StateJson :=
  { clusterNodes := [⟨"A"⟩], serviceProps := [],
    wgProps := [⟨some "A", some "tunnel_ip", some "10.0.0.1"⟩],
    leader_node := some "A" }

def c4Input : PluginInput Nats.LocalState :=
  { local_node_id := "A", state := some (StateArg.valid c4State),
    local_state := none }

/-- Counterexample to claim C4 as stated: for the nats service, a second
apply with an unchanged StateView after a completed round still issues a
service restart (the nats plugin restarts unconditionally and carries no
configuration fingerprint). -/
theorem claim_C4_counterexample :
    (Nats.handle_apply c4Env c4Input).status = Status.completed ∧
    Nats.Action.restartService ∈ (Nats.handle_apply c4Env
      { c4Input with
        local_state := some (Nats.handle_apply c4Env c4Input).local_state }).trace := by
  decide

/-- Witness for claim C4: the second cockroachdb round at the concrete
three-member environment issues no external call. -/
theorem claim_C4_witness :
    (Crdb.handle_apply c3Env
      { c3Input with
        local_state := some (Crdb.handle_apply c3Env c3Input).local_state }).trace = [] :=
  (claim_C4_amended c3Env c3Input (by decide)).2.1

/-- Every property key published by the tail of an rke2 apply round is one of
the four keys the rke2 destroy round retracts. -/
lemma rke2_apply_reconciled_props_sub (env : Rke2.Env) (nid : String)
    (ls : Rke2.LocalState) (ib bd : Bool) (ih : String) (cur : List String)
    (recon : Rke2.RemoveResult) (out : PluginOutput Rke2.LocalState Rke2.KubeAction)
    (hout : Rke2.apply_reconciled env nid ls ib bd ih cur recon = out) :
    ∀ kv ∈ out.node_properties,
      kv.1 ∈ ["k8s_node_id", "k8s_node_ready", "k8s_bootstrap_done", "k8s_kubeconfig"] := by
  unfold Rke2.apply_reconciled at hout
  repeat' split at hout
  all_goals rw [← hout]
  all_goals intro kv hkv
  all_goals first
    | exact absurd hkv (List.not_mem_nil kv)
    | (simp only [List.mem_append, List.mem_cons, List.not_mem_nil, or_false,
         List.append_nil, or_assoc] at hkv
       first
         | (rcases hkv with rfl | rfl | rfl | rfl <;> simp)
         | (rcases hkv with rfl | rfl | rfl <;> simp)
         | (rcases hkv with rfl | rfl <;> simp)
         | (rcases hkv with rfl <;> simp))

set_option maxHeartbeats 1600000 in
/-- Every property key published by an rke2 apply round is one of the four
keys the rke2 destroy round retracts. -/
lemma rke2_apply_props_sub (env : Rke2.Env) (i : PluginInput Rke2.LocalState)
    (out : PluginOutput Rke2.LocalState Rke2.KubeAction)
    (hout : Rke2.handle_apply env i = out) :
    ∀ kv ∈ out.node_properties,
      kv.1 ∈ ["k8s_node_id", "k8s_node_ready", "k8s_bootstrap_done", "k8s_kubeconfig"] := by
  unfold Rke2.handle_apply at hout
  split at hout
  all_goals try dsimp only at hout
  all_goals repeat' split at hout
  all_goals first
    | exact rke2_apply_reconciled_props_sub _ _ _ _ _ _ _ _ _ hout
    | (rw [← hout]; intro kv hkv; exact absurd hkv (List.not_mem_nil kv))

set_option maxHeartbeats 1600000 in
/-- Every property key published by the tail of a cockroachdb apply round is
one of the two keys the cockroachdb destroy round retracts. -/
lemma crdb_apply_with_hash_props_sub (env : Crdb.Env) (nid : String) (s : StateJson)
    (ls : Crdb.LocalState) (il ci : Bool) (ln : Option String) (ih : String)
    (out : PluginOutput Crdb.LocalState Crdb.Action)
    (hout : Crdb.apply_with_hash env nid s ls il ci ln ih = out) :
    ∀ kv ∈ out.node_properties,
      kv.1 ∈ ["cockroachdb_cluster_initialized", "cockroachdb_node_ready"] := by
  unfold Crdb.apply_with_hash at hout
  dsimp only at hout
  repeat' split at hout
  all_goals rw [← hout]
  all_goals intro kv hkv
  all_goals first
    | exact absurd hkv (List.not_mem_nil kv)
    | (simp only [List.mem_cons, List.not_mem_nil, or_false, or_assoc] at hkv
       first
         | (rcases hkv with rfl | rfl <;> simp)
         | (rcases hkv with rfl <;> simp))

set_option maxHeartbeats 1600000 in
/-- Every property key published by a cockroachdb apply round is one of the
two keys the cockroachdb destroy round retracts. -/
lemma crdb_apply_props_sub (env : Crdb.Env) (i : PluginInput Crdb.LocalState)
    (out : PluginOutput Crdb.LocalState Crdb.Action)
    (hout : Crdb.handle_apply env i = out) :
    ∀ kv ∈ out.node_properties,
      kv.1 ∈ ["cockroachdb_cluster_initialized", "cockroachdb_node_ready"] := by
  unfold Crdb.handle_apply at hout
  split at hout
  all_goals try dsimp only at hout
  all_goals repeat' split at hout
  all_goals first
    | exact crdb_apply_with_hash_props_sub _ _ _ _ _ _ _ _ _ hout
    | (rw [← hout]; intro kv hkv; exact absurd hkv (List.not_mem_nil kv))

/-- Claim C6: after a successful destroy, CarryForwardState is the empty
dict and the published delta retracts (value `none`) every property key the
node can have published through this service's init and apply rounds (shown
for the rke2 and cockroachdb services named by the claim). -/
theorem claim_C6_destroy_complete (re : Rke2.Env) (ri ra : PluginInput Rke2.LocalState)
    (ce : Crdb.Env) (ci ca : PluginInput Crdb.LocalState)
    (hrd : re.destroy_ok = true) (hcd : ce.destroy_ok = true) :
    ((Rke2.handle_destroy re ri).status = Status.completed ∧
     (Rke2.handle_destroy re ri).local_state = Rke2.LocalState.empty ∧
     (Rke2.handle_init re ra).node_properties = [] ∧
     ∀ kv ∈ (Rke2.handle_apply re ra).node_properties,
       (kv.1, (none : Option String)) ∈ (Rke2.handle_destroy re ri).node_properties) ∧
    ((Crdb.handle_destroy ce ci).status = Status.completed ∧
     (Crdb.handle_destroy ce ci).local_state = Crdb.LocalState.empty ∧
     (Crdb.handle_init ce ca).node_properties = [] ∧
     ∀ kv ∈ (Crdb.handle_apply ce ca).node_properties,
       (kv.1, (none : Option String)) ∈ (Crdb.handle_destroy ce ci).node_properties) := by
  constructor
  · refine ⟨?_, ?_, ?_, ?_⟩
    · simp only [Rke2.handle_destroy, hrd, if_true]
    · simp only [Rke2.handle_destroy, hrd, if_true]
    · unfold Rke2.handle_init
      split <;> rfl
    · intro kv hkv
      have hk := rke2_apply_props_sub re ra _ rfl kv hkv
      simp only [Rke2.handle_destroy, hrd, if_true]
      simp only [List.mem_cons, List.not_mem_nil, or_false] at hk
      rcases hk with h | h | h | h <;> rw [h] <;> simp
  · refine ⟨?_, ?_, ?_, ?_⟩
    · simp only [Crdb.handle_destroy, hcd, if_true]
    · simp only [Crdb.handle_destroy, hcd, if_true]
    · unfold Crdb.handle_init
      split <;> rfl
    · intro kv hkv
      have hk := crdb_apply_props_sub ce ca _ rfl kv hkv
      simp only [Crdb.handle_destroy, hcd, if_true]
      simp only [List.mem_cons, List.not_mem_nil, or_false] at hk
      rcases hk with h | h <;> rw [h] <;> simp

/-- The tail of an rke2 apply round that returns `error` leaves `local_state`
exactly as it was passed in. -/
lemma rke2_apply_reconciled_error_keeps (env : Rke2.Env) (nid : String)
    (ls : Rke2.LocalState) (ib bd : Bool) (ih : String) (cur : List String)
    (recon : Rke2.RemoveResult) (out : PluginOutput Rke2.LocalState Rke2.KubeAction)
    (hout : Rke2.apply_reconciled env nid ls ib bd ih cur recon = out)
    (h : out.status = Status.error) : out.local_state = ls := by
  unfold Rke2.apply_reconciled at hout
  repeat' split at hout
  all_goals rw [← hout] at h ⊢
  all_goals first
    | exact absurd h (by simp)
    | rfl

set_option maxHeartbeats 1600000 in
/-- An rke2 apply round that returns `error` leaves `local_state` exactly as
it was passed in. -/
lemma rke2_error_keeps_state (env : Rke2.Env) (i : PluginInput Rke2.LocalState)
    (ls : Rke2.LocalState) (out : PluginOutput Rke2.LocalState Rke2.KubeAction)
    (hls : i.local_state = some ls)
    (hout : Rke2.handle_apply env i = out)
    (h : out.status = Status.error) : out.local_state = ls := by
  unfold Rke2.handle_apply at hout
  split at hout
  all_goals try dsimp only at hout
  all_goals repeat' split at hout
  all_goals first
    | exact (rke2_apply_reconciled_error_keeps _ _ _ _ _ _ _ _ _ hout h).trans
        (by simp [hls])
    | (rw [← hout] at h ⊢
       first
         | (simp at h
            done)
         | (simp [hls]))

/-- The tail of a cockroachdb apply round that returns `error` leaves
`local_state` exactly as it was passed in. -/
lemma crdb_apply_with_hash_error_keeps (env : Crdb.Env) (nid : String) (s : StateJson)
    (ls : Crdb.LocalState) (il ci : Bool) (ln : Option String) (ih : String)
    (out : PluginOutput Crdb.LocalState Crdb.Action)
    (hout : Crdb.apply_with_hash env nid s ls il ci ln ih = out)
    (h : out.status = Status.error) : out.local_state = ls := by
  unfold Crdb.apply_with_hash at hout
  dsimp only at hout
  repeat' split at hout
  all_goals rw [← hout] at h ⊢
  all_goals first
    | exact absurd h (by simp)
    | rfl

set_option maxHeartbeats 1600000 in
/-- A cockroachdb apply round that returns `error` leaves `local_state`
exactly as it was passed in. -/
lemma crdb_error_keeps_state (env : Crdb.Env) (i : PluginInput Crdb.LocalState)
    (ls : Crdb.LocalState) (out : PluginOutput Crdb.LocalState Crdb.Action)
    (hls : i.local_state = some ls)
    (hout : Crdb.handle_apply env i = out)
    (h : out.status = Status.error) : out.local_state = ls := by
  unfold Crdb.handle_apply at hout
  split at hout
  all_goals try dsimp only at hout
  all_goals repeat' split at hout
  all_goals first
    | exact (crdb_apply_with_hash_error_keeps _ _ _ _ _ _ _ _ _ hout h).trans
        (by simp [hls])
    | (rw [← hout] at h ⊢
       first
         | (simp at h
            done)
         | (simp [hls]))

/-- A nats apply round that returns `error` leaves `local_state` exactly as
it was passed in. -/
lemma nats_error_keeps_state (env : Nats.Env) (i : PluginInput Nats.LocalState)
    (ls : Nats.LocalState) (out : PluginOutput Nats.LocalState Nats.Action)
    (hls : i.local_state = some ls)
    (hout : Nats.handle_apply env i = out)
    (h : out.status = Status.error) : out.local_state = ls := by
  unfold Nats.handle_apply at hout
  split at hout
  all_goals try dsimp only at hout
  all_goals repeat' split at hout
  all_goals rw [← hout] at h ⊢
  all_goals first
    | (simp at h
       done)
    | (simp [hls])

/-- Claim C7: every apply round that returns status `error` carries the
CarryForwardState it was invoked with, unchanged (rke2, cockroachdb and nats
services). -/
theorem claim_C7_error_carries_state (e1 : Rke2.Env) (i1 : PluginInput Rke2.LocalState)
    (l1 : Rke2.LocalState) (e2 : Crdb.Env) (i2 : PluginInput Crdb.LocalState)
    (l2 : Crdb.LocalState) (e3 : Nats.Env) (i3 : PluginInput Nats.LocalState)
    (l3 : Nats.LocalState) :
    (i1.local_state = some l1 → (Rke2.handle_apply e1 i1).status = Status.error →
      (Rke2.handle_apply e1 i1).local_state = l1) ∧
    (i2.local_state = some l2 → (Crdb.handle_apply e2 i2).status = Status.error →
      (Crdb.handle_apply e2 i2).local_state = l2) ∧
    (i3.local_state = some l3 → (Nats.handle_apply e3 i3).status = Status.error →
      (Nats.handle_apply e3 i3).local_state = l3) :=
  ⟨fun hls h => rke2_error_keeps_state e1 i1 l1 _ hls rfl h,
   fun hls h => crdb_error_keeps_state e2 i2 l2 _ hls rfl h,
   fun hls h => nats_error_keeps_state e3 i3 l3 _ hls rfl h⟩

/-- Witness for claim C6 at concrete environments with destroy succeeding. -/
theorem claim_C6_witness :
    (Rke2.handle_destroy c1Env c1Input).status = Status.completed ∧
    (Crdb.handle_destroy c3Env c3Input).local_state = Crdb.LocalState.empty :=
  ⟨(claim_C6_destroy_complete c1Env c1Input c1Input c3Env c3Input c3Input rfl rfl).1.1,
   (claim_C6_destroy_complete c1Env c1Input c1Input c3Env c3Input c3Input rfl rfl).2.2.1⟩

def c7Rke2Input : PluginInput Rke2.LocalState :=
  { local_node_id := "A", state := some StateArg.invalid, local_state := some c1Ls }

def c7CrdbInput : PluginInput Crdb.LocalState :=
  { local_node_id := "A", state := some StateArg.invalid,
    local_state := some Crdb.LocalState.empty }

def c7NatsInput : PluginInput Nats.LocalState :=
  { local_node_id := "A", state := some StateArg.invalid, local_state := some [] }

/-- Witness for claim C7 at concrete rounds that return `error` (invalid
state snapshot): the carry-forward state is returned unchanged. -/
theorem claim_C7_witness :
    (Rke2.handle_apply c1Env c7Rke2Input).local_state = c1Ls ∧
    (Crdb.handle_apply c3Env c7CrdbInput).local_state = Crdb.LocalState.empty ∧
    (Nats.handle_apply c4Env c7NatsInput).local_state = [] :=
  ⟨(claim_C7_error_carries_state c1Env c7Rke2Input c1Ls c3Env c7CrdbInput
      Crdb.LocalState.empty c4Env c7NatsInput []).1 rfl (by decide),
   (claim_C7_error_carries_state c1Env c7Rke2Input c1Ls c3Env c7CrdbInput
      Crdb.LocalState.empty c4Env c7NatsInput []).2.1 rfl (by decide),
   (claim_C7_error_carries_state c1Env c7Rke2Input c1Ls c3Env c7CrdbInput
      Crdb.LocalState.empty c4Env c7NatsInput []).2.2 rfl (by decide)⟩

end SpVm
